import Mathlib

/-!
Verification of the GPyTorch fully-Bayesian GP regression example notebook
(`examples/01_Exact_GPs/GP_Regression_Fully_Bayesian.ipynb`).

The notebook is ~40 lines of sequential glue code: generate synthetic data,
build an exact GP model, register five uniform priors, run NUTS, load the
samples back (batching the model), predict, plot, and demonstrate a
save/reload round trip.  We embed the notebook's own logic shallowly:
`torch.linspace` becomes a rational-valued list; the script's statement
sequence becomes an explicit list of statement records; the
environment-driven configuration becomes a function of the environment; the
prior registrations become a concrete list of registration records.  Library
behaviour that the notebook depends on but whose code is outside this
repository (state-dict shape checking, `pyro_load_from_samples`, parameter
constraint domains) is modelled from the spec and marked as such.
-/

namespace GPNotebook

/-- `torch.linspace a b n`: `n` points from `a` to `b` inclusive, regularly
spaced.  (For `n ≥ 2`, point `i` is `a + (b - a) * i / (n - 1)`.) -/
def linspace (a b : ℚ) (n : ℕ) : List ℚ :=
  (List.range n).map (fun i => a + (b - a) * i / (n - 1))

/-- `train_x = torch.linspace(0, 1, 6)` from the data-generation cell. -/
def train_x : List ℚ := linspace 0 1 6

/-- `test_x = torch.linspace(0, 1, 101)` from the prediction cell (the
`unsqueeze(-1)` only adds a trailing singleton dimension and does not change
the number of test points). -/
def test_x : List ℚ := linspace 0 1 101

/-- The variables the notebook's statements bind or mutate. -/
inductive Var
  | train_x | train_y | smoke_test | num_samples | warmup_steps
  | likelihood | model | mll | pyro_model | nuts_kernel | mcmc_run
  | test_x | test_y | expanded_test_x | output | fig | state_dict
  deriving DecidableEq, Repr

/-- One executable statement of the notebook: the variables it (re)binds, the
objects it mutates in place, and whether it installs any exception handling
(a `try`/`except`, retry loop, or recovery branch). -/
structure Stmt where
  assigns : List Var
  mutates : List Var
  handlesErrors : Bool
  deriving DecidableEq, Repr

/-- The notebook's executable statements, in program order.  Statements 0 and
1 are the data-generation cell (`train_x = ...`, `train_y = ...`); everything
after them is model construction, prior registration, sampling, sample
loading, prediction, plotting, and the save/reload round trip. -/
def notebookStmts : List Stmt :=
  [ { assigns := [Var.train_x], mutates := [], handlesErrors := false },
    { assigns := [Var.train_y], mutates := [], handlesErrors := false },
    { assigns := [Var.smoke_test], mutates := [], handlesErrors := false },
    { assigns := [Var.num_samples], mutates := [], handlesErrors := false },
    { assigns := [Var.warmup_steps], mutates := [], handlesErrors := false },
    { assigns := [Var.likelihood], mutates := [], handlesErrors := false },
    { assigns := [Var.model], mutates := [], handlesErrors := false },
    -- the five register_prior calls mutate the model/likelihood modules
    { assigns := [], mutates := [Var.model], handlesErrors := false },
    { assigns := [], mutates := [Var.model], handlesErrors := false },
    { assigns := [], mutates := [Var.model], handlesErrors := false },
    { assigns := [], mutates := [Var.model], handlesErrors := false },
    { assigns := [], mutates := [Var.likelihood], handlesErrors := false },
    { assigns := [Var.mll], mutates := [], handlesErrors := false },
    { assigns := [Var.pyro_model], mutates := [], handlesErrors := false },
    { assigns := [Var.nuts_kernel], mutates := [], handlesErrors := false },
    { assigns := [Var.mcmc_run], mutates := [], handlesErrors := false },
    { assigns := [], mutates := [Var.mcmc_run], handlesErrors := false },
    { assigns := [], mutates := [Var.model], handlesErrors := false },
    { assigns := [], mutates := [Var.model], handlesErrors := false },
    { assigns := [Var.test_x], mutates := [], handlesErrors := false },
    { assigns := [Var.test_y], mutates := [], handlesErrors := false },
    { assigns := [Var.expanded_test_x], mutates := [], handlesErrors := false },
    { assigns := [Var.output], mutates := [], handlesErrors := false },
    { assigns := [Var.fig], mutates := [Var.fig], handlesErrors := false },
    { assigns := [Var.state_dict], mutates := [], handlesErrors := false },
    { assigns := [Var.model], mutates := [], handlesErrors := false },
    { assigns := [], mutates := [Var.model], handlesErrors := false },
    { assigns := [], mutates := [Var.model], handlesErrors := false } ]

/-- A statement touches a variable if it rebinds it or mutates it in place. -/
def Stmt.touches (s : Stmt) (v : Var) : Bool :=
  s.assigns.contains v || s.mutates.contains v

/-- `smoke_test = ('CI' in os.environ)`: presence of the continuous-
integration marker among the environment keys. -/
def smoke_test (env : List String) : Bool := env.contains "CI"

/-- The three run settings the sampling cell derives from `smoke_test`. -/
structure RunConfig where
  num_samples : ℕ
  warmup_steps : ℕ
  disable_progbar : Bool
  deriving DecidableEq, Repr

/-- `num_samples = 2 if smoke_test else 100`,
`warmup_steps = 2 if smoke_test else 200`, and
`MCMC(..., disable_progbar=smoke_test)` from the sampling cell. -/
def runConfig (env : List String) : RunConfig :=
  let st := smoke_test env
  { num_samples := if st then 2 else 100
    warmup_steps := if st then 2 else 200
    disable_progbar := st }

/-- Claim C3 as stated: toggling the continuous-integration marker changes
only the sample count and the warmup count, and nothing else about the run —
in particular any two environments (with or without the marker) must agree on
every other derived setting, i.e. on the progress-bar flag. -/
def ciChangesOnlyCounts : Prop :=
  ∀ e₁ e₂ : List String, (runConfig e₁).disable_progbar = (runConfig e₂).disable_progbar

/-- A prior distribution as used by the notebook: every registered prior is a
`UniformPrior(low, high)`. -/
inductive PriorDist
  | uniformPrior (low high : ℚ)
  deriving DecidableEq, Repr

/-- The support of a distribution: a `Uniform(low, high)` has support
`[low, high]`. -/
def PriorDist.supportMem : PriorDist → ℚ → Prop
  | .uniformPrior low high, x => low ≤ x ∧ x ≤ high

instance (d : PriorDist) (x : ℚ) : Decidable (d.supportMem x) := by
  cases d with
  | uniformPrior low high => exact inferInstanceAs (Decidable (low ≤ x ∧ x ≤ high))

/-- One `register_prior(name, distribution, parameter)` call from the
sampling cell. -/
structure PriorRegistration where
  prior_name : String
  dist : PriorDist
  param : String
  deriving DecidableEq, Repr

/-- The five `register_prior` calls of the sampling cell, in program order:
mean constant, kernel lengthscale, kernel period length, kernel output-scale,
observation noise — each with a `UniformPrior`. -/
def registrations : List PriorRegistration :=
  [ { prior_name := "mean_prior", dist := .uniformPrior (-1) 1, param := "constant" },
    { prior_name := "lengthscale_prior", dist := .uniformPrior (1/100) (1/2),
      param := "lengthscale" },
    { prior_name := "period_length_prior", dist := .uniformPrior (1/20) (5/2),
      param := "period_length" },
    { prior_name := "outputscale_prior", dist := .uniformPrior 1 2, param := "outputscale" },
    { prior_name := "noise_prior", dist := .uniformPrior (1/20) (3/10), param := "noise" } ]

/-- A constrained parameter's domain: either all of the reals (unconstrained)
or the positive reals (a `Positive()` constraint). -/
inductive Domain
  | allReals
  | positive
  deriving DecidableEq, Repr

/-- Membership in a constrained parameter's domain. -/
def Domain.mem : Domain → ℚ → Prop
  | .allReals, _ => True
  | .positive, x => 0 < x

instance (d : Domain) (x : ℚ) : Decidable (d.mem x) := by
  cases d with
  | allReals => exact inferInstanceAs (Decidable True)
  | positive => exact inferInstanceAs (Decidable (0 < x))

/-- `GaussianLikelihood(noise_constraint=gpytorch.constraints.Positive())`
from the sampling cell: the likelihood is built with an explicit `Positive()`
noise constraint, so the noise parameter's domain is the full positive reals
(rather than the library's default lower bound of `1e-4`). -/
def likelihood_noise_domain : Domain := Domain.positive

/-- Modelled from the spec: the constrained domain of each hyperparameter the
notebook registers a prior on.  The mean constant is unconstrained; the
kernel lengthscale, period length and output-scale carry the library's
positivity constraint ("a lengthscale prior must have support only over the
positive reals"); the noise domain is the `Positive()` constraint the
notebook passes explicitly (`likelihood_noise_domain`).  The constraint code
itself lives in the external GP library, not in this repository. -/
def paramDomain (param : String) : Domain :=
  if param = "constant" then Domain.allReals
  else if param = "noise" then likelihood_noise_domain
  else Domain.positive

/-- Claim C2 as stated: for every registered prior, the prior's support
contains the constrained parameter's domain. -/
def priorSupportContainsDomain : Prop :=
  ∀ r ∈ registrations, ∀ x : ℚ, (paramDomain r.param).mem x → r.dist.supportMem x

/-- A parameter state: each named hyperparameter tensor with its shape (a
scalar parameter has shape `[]`; a batched one has a leading batch
dimension). -/
abbrev ParamState := List (String × List ℕ)

/-- The hyperparameter names carrying a registered prior. -/
def hyperparamNames : List String := registrations.map (fun r => r.param)

/-- The parameter state of a freshly constructed single-instance
`ExactGPModel`: every hyperparameter is a scalar (empty shape). -/
def freshState : ParamState := hyperparamNames.map (fun n => (n, []))

/-- Modelled from the spec: `pyro_load_from_samples` copies the sampler's
draws into the model's parameter storage, converting each scalar parameter
that had a registered prior into a batched array whose leading dimension is
the number of drawn samples (`k`).  The implementation lives in the external
GP library, not in this repository. -/
def pyro_load_from_samples (k : ℕ) (priorParams : List String)
    (state : ParamState) : ParamState :=
  state.map (fun p => if p.fst ∈ priorParams then (p.fst, k :: p.snd) else p)

/-- Modelled from the spec: `load_state_dict` with the module's shape check.
When strict shape checking is enabled (the default), loading fails with a
shape-mismatch error as soon as some parameter's saved shape differs from its
current shape; after `load_strict_shapes(False)` the check is skipped and
loading succeeds.  The implementation lives in the external GP library, not
in this repository. -/
def load_state_dict (strict_shapes : Bool) (current saved : ParamState) :
    Except String Unit :=
  if strict_shapes &&
      !(current.all (fun p => (saved.lookup p.fst).getD p.snd = p.snd)) then
    Except.error "shape mismatch"
  else
    Except.ok ()

/-- The `i`-th training input as a real number. -/
def train_x_r (i : Fin 6) : ℝ := ((train_x.getD i 0 : ℚ) : ℝ)

/-- `train_y = torch.sin(train_x * (2 * math.pi)) + torch.randn(train_x.size()) * 0.2`
from the data-generation cell: the noiseless sinusoid at each training input
plus the standard-normal draw `ε i` (the value produced by `torch.randn`
under the run's random seed) scaled by `0.2`. -/
noncomputable def train_y (ε : Fin 6 → ℝ) (i : Fin 6) : ℝ :=
  Real.sin (train_x_r i * (2 * Real.pi)) + ε i * 0.2

/-- `for i in range(min(num_samples, 25))` from the plotting cell: the batch
indices whose predictive-mean curves get plotted. -/
def plottedCurveIndices (n : ℕ) : List ℕ := List.range (min n 25)

/-- The number of predictive-mean curves the plotting cell draws. -/
def numPlottedCurves (n : ℕ) : ℕ := (plottedCurveIndices n).length

/-- Loading the notebook's sample set into the fresh model batches every
prior-carrying hyperparameter: each of the five scalar parameters becomes a
rank-one tensor of size `k` (the number of drawn samples). -/
theorem loaded_eq (k : ℕ) :
    pyro_load_from_samples k hyperparamNames freshState =
      [("constant", [k]), ("lengthscale", [k]), ("period_length", [k]),
       ("outputscale", [k]), ("noise", [k])] := rfl

/-- The training inputs evaluate to the six rationals `0, 1/5, …, 1`. -/
theorem train_x_eq : train_x = [0, 1/5, 2/5, 3/5, 4/5, 1] := by
  norm_num [train_x, linspace, List.range_succ]

/-- C1: reloading the batched parameter state (saved from the model after
`pyro_load_from_samples`) into a freshly constructed single-instance
`ExactGPModel` succeeds once shape-strict checking has been relaxed via
`load_strict_shapes(False)`, and raises a shape-mismatch error whenever
strict shape checking is left enabled. -/
theorem C1_roundtrip_strict_shapes (k : ℕ) :
    load_state_dict false freshState
        (pyro_load_from_samples k hyperparamNames freshState) = Except.ok () ∧
    load_state_dict true freshState
        (pyro_load_from_samples k hyperparamNames freshState) =
      Except.error "shape mismatch" := by
  constructor
  · rfl
  · simp [load_state_dict, freshState, hyperparamNames, registrations,
      pyro_load_from_samples, List.lookup]

/-- C2 (counterexample): the claim that every registered prior's support
contains the constrained parameter's domain is false — the lengthscale
parameter's domain (the positive reals) contains `1`, but `1` is outside the
support `[0.01, 0.5]` of the registered `UniformPrior(0.01, 0.5)`. -/
theorem C2_support_contains_domain_false : ¬ priorSupportContainsDomain := by
  intro h
  have hr : PriorRegistration.mk "lengthscale_prior"
      (PriorDist.uniformPrior (1/100) (1/2)) "lengthscale" ∈ registrations := by
    simp [registrations]
  have h2 := h _ hr 1 (by simp [paramDomain, Domain.mem])
  exact absurd h2.2 (by norm_num)

/-- C2 (amended): for every registered prior, the prior's support is
contained in the constrained parameter's domain (the containment runs from
support into domain, not the other way around). -/
theorem C2_support_within_domain (r : PriorRegistration) (hr : r ∈ registrations)
    (x : ℚ) (hx : r.dist.supportMem x) : (paramDomain r.param).mem x := by
  fin_cases hr <;>
    simp only [PriorDist.supportMem] at hx <;>
    simp [paramDomain, Domain.mem, likelihood_noise_domain] <;>
    linarith [hx.1]

/-- Witness for C2 (amended): the lengthscale prior's support contains
`1/10`, and `1/10` indeed lies in the lengthscale parameter's domain. -/
theorem C2_support_within_domain_witness :
    (Domain.mem (paramDomain "lengthscale") (1/10) : Prop) :=
  C2_support_within_domain
    (PriorRegistration.mk "lengthscale_prior"
      (PriorDist.uniformPrior (1/100) (1/2)) "lengthscale")
    (by simp [registrations]) (1/10) (by norm_num [PriorDist.supportMem])

/-- C3 (counterexample): the claim that the continuous-integration marker
changes only the sample count and the warmup count is false — with the
marker present the progress bar is disabled (`disable_progbar = smoke_test`),
and without it the progress bar is shown. -/
theorem C3_only_two_constants_false : ¬ ciChangesOnlyCounts := by
  intro h
  have h2 := h ["CI"] []
  simp [runConfig, smoke_test] at h2

/-- C3 (amended): the continuous-integration marker drives exactly three run
settings — it switches the sample count from 100 to 2, the warmup count from
200 to 2, and disables the sampler's progress bar — and the derived run
configuration depends on the environment only through the marker's
presence. -/
theorem C3_ci_config (e₁ e₂ : List String)
    (h₁ : smoke_test e₁ = true) (h₂ : smoke_test e₂ = false) :
    runConfig e₁ = RunConfig.mk 2 2 true ∧
    runConfig e₂ = RunConfig.mk 100 200 false ∧
    (∀ e e' : List String, smoke_test e = smoke_test e' →
      runConfig e = runConfig e') := by
  refine ⟨by simp [runConfig, h₁], by simp [runConfig, h₂], ?_⟩
  intro e e' h
  simp [runConfig, h]

/-- Witness for C3 (amended): the environment `["CI"]` carries the marker and
the empty environment does not, yielding the smoke-test and full-run
configurations respectively. -/
theorem C3_ci_config_witness :
    runConfig ["CI"] = RunConfig.mk 2 2 true ∧
    runConfig [] = RunConfig.mk 100 200 false :=
  ⟨(C3_ci_config ["CI"] [] (by decide) (by decide)).1,
   (C3_ci_config ["CI"] [] (by decide) (by decide)).2.1⟩

/-- C4: the sampling cell registers exactly five priors, every one of them a
uniform distribution, and they attach (in order) to the mean constant, the
kernel lengthscale, the kernel period length, the kernel output-scale and
the observation noise. -/
theorem C4_five_uniform_priors :
    registrations.length = 5 ∧
    registrations.map (fun r => r.prior_name) =
      ["mean_prior", "lengthscale_prior", "period_length_prior",
       "outputscale_prior", "noise_prior"] ∧
    registrations.map (fun r => r.param) =
      ["constant", "lengthscale", "period_length", "outputscale", "noise"] ∧
    (registrations.all fun r =>
      match r.dist with | PriorDist.uniformPrior _ _ => true) = true :=
  ⟨rfl, rfl, rfl, rfl⟩

/-- C5: after `pyro_load_from_samples` with `k` drawn samples, every
hyperparameter that had a registered prior holds a batched array whose
leading dimension equals `k` — each formerly scalar parameter now has shape
`[k]`, turning the model into a batch of `k` GPs. -/
theorem C5_load_samples_batches (k : ℕ) (name : String)
    (h : name ∈ hyperparamNames) :
    (name, [k]) ∈ pyro_load_from_samples k hyperparamNames freshState ∧
    ∀ sh, (name, sh) ∈ pyro_load_from_samples k hyperparamNames freshState →
      sh.head? = some k := by
  rw [loaded_eq]
  simp only [hyperparamNames, registrations, List.map_cons, List.map_nil] at h
  constructor
  · fin_cases h <;> simp
  · intro sh hsh
    simp only [List.mem_cons, List.not_mem_nil, or_false, Prod.mk.injEq] at hsh
    rcases hsh with ⟨_, h2⟩ | ⟨_, h2⟩ | ⟨_, h2⟩ | ⟨_, h2⟩ | ⟨_, h2⟩ <;>
      subst h2 <;> rfl

/-- Witness for C5: with 2 drawn samples, the noise parameter (which carries
a registered prior) ends up with shape `[2]`. -/
theorem C5_load_samples_batches_witness :
    ("noise", [2]) ∈ pyro_load_from_samples 2 hyperparamNames freshState :=
  (C5_load_samples_batches 2 "noise"
    (by simp [hyperparamNames, registrations])).1

/-- C6: the observation set holds exactly 6 training inputs, regularly
spaced (consecutive gaps of `1/5`) and lying in `[0,1]`, and exactly 101
test points; and no notebook statement after the two data-generation
statements rebinds or mutates `train_x` or `train_y`. -/
theorem C6_observation_set :
    train_x.length = 6 ∧ test_x.length = 101 ∧
    List.Chain' (fun a b : ℚ => b - a = 1/5) train_x ∧
    train_x.Forall (fun x => 0 ≤ x ∧ x ≤ 1) ∧
    ((notebookStmts.drop 2).all fun s =>
      !(s.touches Var.train_x) && !(s.touches Var.train_y)) = true := by
  refine ⟨rfl, rfl, ?_, ?_, by decide⟩ <;>
    rw [train_x_eq] <;>
    norm_num [List.chain'_cons, List.Forall]

/-- C7: under any realisation `ε` of the six standard-normal draws (the
values fixed by the run's random seed), every synthetic training target
equals `sin(2πx)` at its input plus the draw scaled by `0.2`, and hence every
target lies within a bounded range around the noiseless sinusoid. -/
theorem C7_targets_near_sinusoid (ε : Fin 6 → ℝ) :
    (∀ i, train_y ε i = Real.sin (train_x_r i * (2 * Real.pi)) + ε i * 0.2) ∧
    ∃ B : ℝ, 0 ≤ B ∧
      ∀ i, |train_y ε i - Real.sin (train_x_r i * (2 * Real.pi))| ≤ B := by
  refine ⟨fun i => rfl, ?_⟩
  refine ⟨Finset.univ.sup' Finset.univ_nonempty (fun i => |ε i| * 0.2), ?_, ?_⟩
  · have h0 : (0:ℝ) ≤ |ε 0| * 0.2 := by positivity
    exact le_trans h0 (Finset.le_sup' (fun i => |ε i| * 0.2)
      (Finset.mem_univ (0 : Fin 6)))
  · intro i
    have he : train_y ε i - Real.sin (train_x_r i * (2 * Real.pi)) =
        ε i * 0.2 := by
      simp [train_y]
    rw [he, abs_mul]
    have h2 : |(0.2:ℝ)| = 0.2 := by norm_num
    rw [h2]
    exact Finset.le_sup' (fun i => |ε i| * 0.2) (Finset.mem_univ i)

/-- C8: no statement of the notebook installs any exception handling — every
failure (invalid prior support, shape mismatch on reload, sampler
non-convergence) propagates out of the script unhandled. -/
theorem C8_no_error_handling :
    (notebookStmts.all fun s => !s.handlesErrors) = true := by decide

/-- C9: the plotting cell draws exactly `min(num_samples, 25)`
predictive-mean curves — never more than 25, and exactly `num_samples` of
them whenever `num_samples` is below 25 (for example 2 in the smoke-test
configuration). -/
theorem C9_plotted_curves (n : ℕ) :
    numPlottedCurves n = min n 25 ∧ numPlottedCurves n ≤ 25 ∧
    (n < 25 → numPlottedCurves n = n) := by
  refine ⟨List.length_range _, ?_, ?_⟩
  · rw [numPlottedCurves, plottedCurveIndices, List.length_range]
    exact min_le_right n 25
  · intro hn
    rw [numPlottedCurves, plottedCurveIndices, List.length_range]
    exact Nat.min_eq_left (Nat.le_of_lt hn)

/-- Witness for C9: in the smoke-test configuration (`num_samples = 2`),
exactly 2 curves are plotted. -/
theorem C9_plotted_curves_witness : numPlottedCurves 2 = 2 :=
  (C9_plotted_curves 2).2.2 (by decide)

/-- C10: every registered prior's support is a bounded interval `[low, high]`
contained in its parameter's constrained domain; the likelihood is built with
a `Positive()` noise constraint (the full positive reals), and in particular
the `Uniform(0.05, 0.3)` noise prior's support lies inside the noise
parameter's domain. -/
theorem C10_bounded_support_in_domain :
    likelihood_noise_domain = Domain.positive ∧
    (∀ r ∈ registrations, ∃ low high : ℚ,
      r.dist = PriorDist.uniformPrior low high ∧ low ≤ high ∧
      ∀ x : ℚ, r.dist.supportMem x →
        low ≤ x ∧ x ≤ high ∧ (paramDomain r.param).mem x) ∧
    (∀ x : ℚ, PriorDist.supportMem (PriorDist.uniformPrior (1/20) (3/10)) x →
      likelihood_noise_domain.mem x) := by
  refine ⟨rfl, ?_, ?_⟩
  · intro r hr
    fin_cases hr <;>
      refine ⟨_, _, rfl, by norm_num, ?_⟩ <;>
      intro x hx <;>
      simp only [PriorDist.supportMem] at hx <;>
      refine ⟨hx.1, hx.2, ?_⟩ <;>
      simp [paramDomain, Domain.mem, likelihood_noise_domain] <;>
      linarith [hx.1]
  · intro x hx
    simp only [PriorDist.supportMem] at hx
    simp only [likelihood_noise_domain, Domain.mem]
    linarith [hx.1]

/-- Witness for C10: `1/10` lies in the noise prior's support
`[0.05, 0.3]`, hence in the noise parameter's positive domain. -/
theorem C10_bounded_support_in_domain_witness :
    (Domain.mem likelihood_noise_domain (1/10) : Prop) :=
  C10_bounded_support_in_domain.2.2 (1/10)
    (by norm_num [PriorDist.supportMem])

end GPNotebook
